import Mathlib

/-!
Verification of the system-probe orchestration and output-parsing layer of
`src/Main.py` (an interactive CLI optimisation utility).  Python string
primitives (`str.strip`, `str.split`, `str.splitlines`, `str.isdigit`,
`int(...)`, truthiness) are embedded as executable functions on `List Char`
lifted to `String`; external effects (shell execution, environment lookup)
are passed in as explicit oracle arguments.  Exceptions raised by the Python
code are modelled with `Except PyErr`.
-/

namespace CLIOpt

/-- The exceptions thrown by the embedded fragments of `Main.py`. -/
inductive PyErr where
  /-- Python `IndexError` (out-of-range subscript, e.g. `l.split()[1]`). -/
  | indexError : PyErr
  /-- Python `ZeroDivisionError` (e.g. `int(a) / int(b)` with `b = 0`). -/
  | zeroDivisionError : PyErr
  /-- Python `TypeError` (e.g. `re.search(pat, None)`). -/
  | typeError : PyErr
  /-- Python `ValueError` (e.g. `int("abc")`). -/
  | valueError : PyErr
  deriving Repr, DecidableEq

/-- The platform resolved once at startup from the `IS_MAC` / `IS_WIN`
flags of `Main.py` (lines 20-21); anything else is `other`. -/
inductive Platform where
  | macLike : Platform
  | windowsLike : Platform
  | other : Platform
  deriving Repr, DecidableEq

/-! ### Python string primitives over `List Char` -/

/-- Whitespace for the purposes of `str.strip` / `str.split()` (ASCII model). -/
def isWs (c : Char) : Bool :=
  c = ' ' || c = '\t' || c = '\n' || c = '\r' || c = '\x0b' || c = '\x0c'

/-- Drop leading whitespace. -/
def dropLeadWs (l : List Char) : List Char := l.dropWhile isWs

/-- `str.strip()` on a character list: drop leading and trailing whitespace. -/
def pyStripL (l : List Char) : List Char :=
  ((dropLeadWs l).reverse.dropWhile isWs).reverse

/-- `str.strip()` lifted to `String`. -/
def pyStrip (s : String) : String := String.mk (pyStripL s.data)

/-- `str.lower()` (ASCII model). -/
def pyLower (s : String) : String := String.mk (s.data.map Char.toLower)

/-- Accumulator-style worker for `str.split()` with no separator:
split on runs of whitespace, producing no empty words. -/
def pyWordsAux : List Char → List Char → List (List Char)
  | [], acc => if acc.isEmpty then [] else [acc.reverse]
  | c :: cs, acc =>
    if isWs c then
      if acc.isEmpty then pyWordsAux cs [] else acc.reverse :: pyWordsAux cs []
    else
      pyWordsAux cs (c :: acc)

/-- `str.split()` (no argument) on a character list. -/
def pyWordsL (l : List Char) : List (List Char) := pyWordsAux l []

/-- `str.split()` lifted to `String`. -/
def pyWords (s : String) : List String := (pyWordsL s.data).map String.mk

/-- Split on a single separator character, keeping empty segments
(Python `str.split(",")` semantics: `"".split(",") == [""]`). -/
def splitOnCharL (sep : Char) : List Char → List (List Char)
  | [] => [[]]
  | c :: cs =>
    if c = sep then
      [] :: splitOnCharL sep cs
    else
      match splitOnCharL sep cs with
      | s :: rest => (c :: s) :: rest
      | [] => [[c]]

/-- `str.splitlines()`: split on newline, with no trailing empty line when
the text ends in a newline, and `[]` on the empty string. -/
def pySplitLines (s : String) : List String :=
  if s.data.isEmpty then []
  else
    let segs := splitOnCharL '\n' s.data
    let segs := if segs.getLast? = some [] then segs.dropLast else segs
    segs.map String.mk

/-- `str.split(",")` lifted to `String`. -/
def pySplitComma (s : String) : List String :=
  (splitOnCharL ',' s.data).map String.mk

/-- `str.isdigit()` (ASCII model): nonempty and all characters are digits. -/
def pyIsDigit (s : String) : Bool :=
  !s.data.isEmpty && s.data.all Char.isDigit

/-- Numeric value of a digit string. -/
def natOfDigits (l : List Char) : Nat :=
  l.foldl (fun n c => 10 * n + (c.toNat - '0'.toNat)) 0

/-- `int(s)` for a string that passed `isdigit()`. -/
def pyToNat (s : String) : Nat := natOfDigits s.data

/-- Python `int(s)` on an arbitrary string: optional surrounding whitespace,
optional sign, then at least one digit; `none` models `ValueError`. -/
def pyInt (s : String) : Option Int :=
  match pyStripL s.data with
  | '-' :: ds => if !ds.isEmpty && ds.all Char.isDigit then some (-(natOfDigits ds : Int)) else none
  | '+' :: ds => if !ds.isEmpty && ds.all Char.isDigit then some (natOfDigits ds : Int) else none
  | ds => if !ds.isEmpty && ds.all Char.isDigit then some (natOfDigits ds : Int) else none

/-- Boolean prefix test on character lists (`str.startswith` model). -/
def isPrefixOfL : List Char → List Char → Bool
  | [], _ => true
  | _ :: _, [] => false
  | c :: cs, d :: ds => c = d && isPrefixOfL cs ds

/-- `s.startswith(t)` lifted to `String`. -/
def pyStartsWith (s t : String) : Bool := isPrefixOfL t.data s.data

/-! ### Command Executor (`run_command`, Main.py lines 23-30) -/

/-- What the underlying `subprocess.run(command, shell=True, ...)` call did:
either the shell ran and produced captured stdout with some exit code, or
invoking the shell itself raised. -/
inductive SpawnOutcome where
  | ran (exitCode : Int) (stdout : String) : SpawnOutcome
  | spawnError (msg : String) : SpawnOutcome
  deriving Repr, DecidableEq

/-- A line appended to the diagnostic log (`logging.error`). -/
inductive LogEntry where
  | error (msg : String) : LogEntry
  deriving Repr, DecidableEq

/-- `run_command` (Main.py lines 23-30): returns `result.stdout.strip()` when
the shell was invoked (whatever the exit code), and on an exception logs the
error and returns `None`.  The pair is (returned value, log lines written). -/
def run_command (cmd : String) (outcome : SpawnOutcome) :
    Option String × List LogEntry :=
  match outcome with
  | .ran _ stdout => (some (pyStrip stdout), [])
  | .spawnError msg => (none, [.error ("Error running command " ++ cmd ++ ": " ++ msg)])

/-! ### Battery health probe (`get_battery_health`, Main.py lines 32-53) -/

/-- `re.search('"DesignCapacity"=(\d+)', s)` on a character list: find the
first position where the literal `"DesignCapacity"=` is followed by at least
one digit, and return the maximal digit run captured there. -/
def searchDesignL (pat : List Char) : List Char → Option (List Char)
  | [] => none
  | c :: cs =>
    if isPrefixOfL pat (c :: cs) then
      let ds := ((c :: cs).drop pat.length).takeWhile Char.isDigit
      if ds.isEmpty then searchDesignL pat cs else some ds
    else
      searchDesignL pat cs

/-- The capture group of `re.search('"DesignCapacity"=(\d+)', s)`,
as a string; `none` models a failed match. -/
def searchDesign (s : String) : Option String :=
  (searchDesignL "\"DesignCapacity\"=".data s.data).map String.mk

/-- Round-half-even integer division: `round(a / d)` for `d > 0`,
Python's rounding mode for float formatting ties. -/
def roundHalfEvenDiv (a : Int) (d : Nat) : Int :=
  let q := Int.fdiv a d
  let r := a - q * d
  if 2 * r < d then q
  else if (d : Int) < 2 * r then q + 1
  else if q % 2 = 0 then q else q + 1

/-- Decimal digits of a natural number. -/
def natDigitsL (n : Nat) : List Char :=
  (Nat.toDigits 10 n)

/-- `f"{(m / d) * 100:.2f}%"` (Main.py line 40): the percentage
`100 * m / d` rendered with two decimal places and a `%` suffix.  The Python
source computes with binary floating point; this models the same value with
exact rational rounding (round half to even), which agrees whenever the
double rounding artefacts do not strike. -/
def formatPct (m : Int) (d : Nat) : String :=
  let n := roundHalfEvenDiv (10000 * m) d
  let na := n.natAbs
  let sign := if n < 0 then "-" else ""
  let frac := natDigitsL (na % 100)
  let frac := if (na % 100) < 10 then '0' :: frac else frac
  sign ++ String.mk (natDigitsL (na / 100)) ++ "." ++ String.mk frac ++ "%"

/-- `get_battery_health` on the Mac-like platform (Main.py lines 33-41).
`max_capacity` and `data_str` are the two `run_command` results (`None`
models a failed spawn).  Faithful to the source:
`re.search` on a `None` data string raises `TypeError`; when
`max_capacity` is truthy and the regex matched, `int(max_capacity)` may
raise `ValueError`, and `int(max_capacity) / int(design_capacity)` raises
`ZeroDivisionError` when the captured design capacity is `0`; otherwise the
health percentage is formatted, and every remaining case returns `"N/A"`. -/
def get_battery_health_mac (max_capacity data_str : Option String) :
    Except PyErr String :=
  match data_str with
  | none => .error .typeError
  | some ds =>
    match max_capacity, searchDesign ds with
    | some mc, some dc =>
      if !mc.data.isEmpty then
        match pyInt mc with
        | none => .error .valueError
        | some m =>
          let d := pyToNat dc
          if d = 0 then .error .zeroDivisionError
          else .ok (formatPct m d)
      else .ok "N/A"
    | _, _ => .ok "N/A"

/-! ### Cache size probe (`get_cache_size`, Main.py lines 55-59) -/

/-- `get_cache_size(path)` (Main.py lines 55-59) with the raw output of the
`du -sh ... | awk ...` pipe passed in as `duOut`.  On the Mac-like platform
the stripped pipe output is returned, defaulting to `"0B"` when empty; on
the Windows-like platform the pipe is never consulted and `size` is the
literal `"N/A"` (which is truthy, hence returned as-is); any other platform
returns `"N/A"` from the final line. -/
def get_cache_size (p : Platform) (duOut : String) : String :=
  match p with
  | .macLike =>
    let size := pyStrip duOut
    if !size.data.isEmpty then size else "0B"
  | .windowsLike => "N/A"
  | .other => "N/A"

/-! ### Listing parsers (`check_system_updates`, Main.py lines 123-146,
and `monitor_usage`, Main.py lines 332-353) -/

/-- Homebrew outdated parser (Main.py line 128):
`brew_outdated.splitlines() if brew_outdated else []` — every line is one
package name, with no filtering at all. -/
def brewParse (raw : String) : List String :=
  if !raw.data.isEmpty then pySplitLines raw else []

/-- Chocolatey outdated parser, line-list level (Main.py line 135):
`[line.split()[0] for line in lines[1:] if line.strip()]` — skip the first
line, and for each remaining line whose strip is non-empty take the first
whitespace-delimited token (which exists because the line is non-blank). -/
def chocoParseLines (lines : List String) : List String :=
  (lines.drop 1).filterMap fun l =>
    if (pyStrip l).data.isEmpty then none else (pyWords l).head?

/-- Chocolatey outdated parser on the raw command output (Main.py line 135),
including the `if choco_outdated else []` truthiness guard. -/
def chocoParse (raw : String) : List String :=
  if !raw.data.isEmpty then chocoParseLines (pySplitLines raw) else []

/-- The winget header search (Main.py lines 141-145): the index of the first
line `l` with `l.strip().startswith("Name")`, defaulting to `0` when no line
matches. -/
def wingetHeaderIdx (lines : List String) : Nat :=
  (lines.findIdx? (fun l => pyStartsWith (pyStrip l) "Name")).getD 0

/-- `[l.split()[1] for l in ls if l.strip()]` (Main.py line 146): take the
second whitespace token of every non-blank line, raising `IndexError` when a
non-blank line has fewer than two tokens (the comprehension is evaluated
left to right, so the first short line aborts it). -/
def secondTokens : List String → Except PyErr (List String)
  | [] => .ok []
  | l :: ls =>
    if (pyStrip l).data.isEmpty then secondTokens ls
    else
      match (pyWords l)[1]? with
      | some t => (secondTokens ls).map (t :: ·)
      | none => .error .indexError

/-- Winget upgrade parser, line-list level (Main.py lines 139-146): when
there are at least two lines, locate the header line (first line whose strip
starts with `"Name"`, default index 0) and run the second-token
comprehension on the lines after it; otherwise the outdated list stays
empty. -/
def wingetParseLines (lines : List String) : Except PyErr (List String) :=
  if 1 < lines.length then
    secondTokens (lines.drop (wingetHeaderIdx lines + 1))
  else .ok []

/-- Winget upgrade parser on the raw command output. -/
def wingetParse (raw : String) : Except PyErr (List String) :=
  wingetParseLines (pySplitLines raw)

/-- `Modelled from the spec:` the winget parsing rule as §4.4 words it —
"locate the header line whose first token is `Name`", everything else as in
the code.  Used only to compare against `wingetParseLines`, the embedding of
the source. -/
def wingetHeaderIdxSpec (lines : List String) : Nat :=
  (lines.findIdx? (fun l => (pyWords l).head? = some "Name")).getD 0

/-- `Modelled from the spec:` winget parsing with the spec's header rule. -/
def wingetParseSpecLines (lines : List String) : Except PyErr (List String) :=
  if 1 < lines.length then
    secondTokens (lines.drop (wingetHeaderIdxSpec lines + 1))
  else .ok []

/-- A process record as built by `monitor_usage`: (pid, label). -/
abbrev ProcRecord := String × String

/-- Mac process-listing parser (Main.py lines 333-342): a line is accepted
only when it splits into more than 10 whitespace fields, contributing
`(parts[1], parts[10])`; shorter lines are dropped. -/
def macProcParse (raw : String) : List ProcRecord :=
  (pySplitLines raw).filterMap fun l =>
    let parts := pyWords l
    if 10 < parts.length then some (parts.getD 1 "", parts.getD 10 "") else none

/-- Windows process-listing parser (Main.py lines 344-353): a line is
accepted only when it has at least 3 whitespace fields and `parts[1]` is all
digits, contributing `(parts[1], parts[0])`; other lines are dropped. -/
def winProcParse (raw : String) : List ProcRecord :=
  (pySplitLines raw).filterMap fun l =>
    let parts := pyWords l
    if 3 ≤ parts.length && pyIsDigit (parts.getD 1 "") then
      some (parts.getD 1 "", parts.getD 0 "")
    else none

/-! ### Upgrade selection resolver (`check_system_updates`,
Main.py lines 177-199 and the identical Windows copy at lines 232-260) -/

/-- `[int(i.strip()) for i in choice.split(",") if i.strip().isdigit()]`
(Main.py lines 188 and 246): the digit tokens of the comma-split input, in
input order, duplicates kept. -/
def parseIndices (choice : String) : List Nat :=
  (pySplitComma choice).filterMap fun t =>
    let s := pyStrip t
    if pyIsDigit s then some (pyToNat s) else none

/-- `[outdated_list[i-1] for i in indices if 0 < i <= len(outdated_list)]`
(Main.py lines 189 and 247): indices filtered to the valid 1-based range and
mapped to packages, in input order, duplicates kept. -/
def selectedPkgs (pkgs : List String) (indices : List Nat) : List String :=
  indices.filterMap fun i =>
    if 0 < i ∧ i ≤ pkgs.length then pkgs[i - 1]? else none

/-- The outcome of the upgrade-selection dialogue. -/
inductive UpgradeAction where
  /-- `"a"`: upgrade every outdated package. -/
  | upgradeAll : UpgradeAction
  /-- `"n"`: skip, "No packages upgraded." -/
  | skip : UpgradeAction
  /-- a non-empty valid selection: upgrade exactly these, in this order. -/
  | upgradeSome (sel : List String) : UpgradeAction
  /-- empty valid selection: "No valid packages selected." is rendered. -/
  | noValidNotice : UpgradeAction
  deriving Repr, DecidableEq

/-- The selection dialogue of `check_system_updates` (Main.py lines
177-197): the raw input is stripped and lowercased; `"a"` upgrades all,
`"n"` skips, and otherwise the comma list is parsed, filtered to valid
indices and mapped to packages — a non-empty result is upgraded in order,
an empty one renders the "No valid packages selected." notice. -/
def resolveUpgrade (rawInput : String) (pkgs : List String) : UpgradeAction :=
  let choice := pyLower (pyStrip rawInput)
  if choice = "a" then .upgradeAll
  else if choice = "n" then .skip
  else
    let sel := selectedPkgs pkgs (parseIndices choice)
    if sel.isEmpty then .noValidNotice else .upgradeSome sel

/-! ### Process-kill gating (`monitor_usage`, Main.py lines 366-379) -/

/-- The kill decision of `monitor_usage` (Main.py lines 366-379): the pid
passed to `kill_process`, or `none` when no kill command is executed.
Faithful to the source: `action == "1" and cpu_list` guards the CPU branch,
`action == "2" and mem_list` the memory branch, anything else prints "No
process killed."; inside a branch the kill happens only when the entered
index is all digits (`idx.isdigit()`) and `1 <= int(idx) <= len(list)`,
and the pid is entry `int(idx)-1`'s first component. -/
def killTarget (action idxInput : String) (cpu mem : List ProcRecord) :
    Option String :=
  if action = "1" ∧ cpu ≠ [] then
    if pyIsDigit idxInput = true ∧ 1 ≤ pyToNat idxInput ∧ pyToNat idxInput ≤ cpu.length then
      some (cpu.getD (pyToNat idxInput - 1) ("", "")).1
    else none
  else if action = "2" ∧ mem ≠ [] then
    if pyIsDigit idxInput = true ∧ 1 ≤ pyToNat idxInput ∧ pyToNat idxInput ≤ mem.length then
      some (mem.getD (pyToNat idxInput - 1) ("", "")).1
    else none
  else none

/-! ### Cache clearing (`clear_cache`, Main.py lines 86-108, and
`clear_browser_cache`, Main.py lines 61-84) -/

/-- The externally visible steps taken by the cache-clearing flow. -/
inductive Effect where
  /-- a read-only disk-usage probe of `path` (`run_command "du ..."` or the
  `os.popen` probe inside `get_cache_size`). -/
  | duProbe (path : String) : Effect
  /-- a deletion command on `path` (`os.system("rm -rf ...")` on the
  Mac-like platform, `os.system("del ...")` on the Windows-like one). -/
  | removeTree (path : String) : Effect
  /-- an informational `console.print`. -/
  | render (msg : String) : Effect
  /-- a `[red]` error `console.print`. -/
  | renderError (msg : String) : Effect
  deriving Repr, DecidableEq

/-- `browser_cache_paths` (Main.py lines 63-74): two (browser, path) pairs
per supported platform, the empty dict otherwise.  `expandVars` models
`os.path.expandvars`. -/
def browserCachePaths (expandVars : String → String) :
    Platform → List (String × String)
  | .macLike =>
    [("Microsoft Edge", "~/Library/Caches/Microsoft Edge/*"),
     ("Safari", "~/Library/Caches/com.apple.Safari/*")]
  | .windowsLike =>
    [("Edge", expandVars "%LOCALAPPDATA%\\Microsoft\\Edge\\User Data\\Default\\Cache\\*"),
     ("Chrome", expandVars "%LOCALAPPDATA%\\Google\\Chrome\\User Data\\Default\\Cache\\*")]
  | .other => []

/-- `clear_browser_cache` (Main.py lines 76-84) as an effect trace.
`expandUser` models `os.path.expanduser`; `duOut` gives the raw output of
the disk-usage probe behind `get_cache_size` for a path (re-probing the
same path is modelled as returning the same text).  Nothing in the loop
body raises, so the per-browser `except` branch is dead. -/
def clear_browser_cache (p : Platform) (expandUser : String → String)
    (expandVars : String → String) (duOut : String → String) : List Effect :=
  (browserCachePaths expandVars p).flatMap fun bp =>
    let sizeBefore := get_cache_size p (duOut bp.2)
    let sizeAfter := get_cache_size p (duOut bp.2)
    [.duProbe bp.2,
     .render (bp.1 ++ " cache size before cleanup: " ++ sizeBefore),
     .removeTree (if p = .macLike then expandUser bp.2 else bp.2),
     .duProbe bp.2,
     .render (bp.1 ++ " cache cleared! Current size: " ++ sizeAfter)]

/-- `cache_paths` (Main.py lines 88-93): two paths per supported platform,
the empty list otherwise. -/
def cachePaths (expandVars : String → String) : Platform → List String
  | .macLike => ["~/Library/Caches", "/Library/Caches"]
  | .windowsLike => [expandVars "%TEMP%", expandVars "C:\\Windows\\Temp"]
  | .other => []

/-- The `for path in cache_paths` body of `clear_cache` (Main.py lines
97-106), returning the effect trace and the first uncaught exception (which
aborts the loop).  `duSum` gives the `run_command("du -sm ...")` result for
a path (`none` = spawn failure).  On the Mac-like platform both size probes
run and, when both are truthy, `int(before) - int(after)` is computed — a
non-numeric probe output there raises `ValueError`. -/
def clearCacheLoop (p : Platform) (expandUser expandVars : String → String)
    (duSum : String → Option String) (duOut : String → String) :
    List String → List Effect × Option PyErr
  | [] => ([], none)
  | path :: rest =>
    let expanded := expandUser path
    let before := if p = .macLike then duSum expanded else none
    let after := if p = .macLike then duSum expanded else none
    let effs :=
      (if p = .macLike then [Effect.duProbe expanded] else []) ++
      [Effect.removeTree expanded] ++
      clear_browser_cache p expandUser expandVars duOut ++
      (if p = .macLike then [Effect.duProbe expanded] else [])
    match before, after with
    | some b, some a =>
      if !b.data.isEmpty && !a.data.isEmpty then
        match pyInt b, pyInt a with
        | some bi, some ai =>
          let res := clearCacheLoop p expandUser expandVars duSum duOut rest
          (effs ++ [Effect.render ("Freed " ++ toString (bi - ai) ++ " MB from " ++ path)] ++ res.1,
           res.2)
        | _, _ => (effs, some .valueError)
      else
        let res := clearCacheLoop p expandUser expandVars duSum duOut rest
        (effs ++ res.1, res.2)
    | _, _ =>
      let res := clearCacheLoop p expandUser expandVars duSum duOut rest
      (effs ++ res.1, res.2)

/-- `clear_cache` (Main.py lines 86-108) as an effect trace: the loop over
`cache_paths`, with any exception caught by the enclosing `try` and rendered
as the `[red]` "Error clearing cache" message. -/
def clear_cache (p : Platform) (expandUser expandVars : String → String)
    (duSum : String → Option String) (duOut : String → String) : List Effect :=
  let res := clearCacheLoop p expandUser expandVars duSum duOut (cachePaths expandVars p)
  res.1 ++ (match res.2 with
    | some _ => [Effect.renderError "Error clearing cache"]
    | none => [])

/-! ### Helper lemmas -/

/-- The index comprehension of lines 189/247 written as filter-then-map:
valid indices kept in input order (duplicates included), each mapped to its
1-based package. -/
theorem selectedPkgs_eq_filter_map (pkgs : List String) (idxs : List Nat) :
    selectedPkgs pkgs idxs =
      (idxs.filter fun i => decide (0 < i ∧ i ≤ pkgs.length)).map
        fun i => pkgs.getD (i - 1) "" := by
  induction idxs with
  | nil => rfl
  | cons i is ih =>
    by_cases h : 0 < i ∧ i ≤ pkgs.length
    · have hlt : i - 1 < pkgs.length := by omega
      simp only [selectedPkgs] at ih ⊢
      rw [List.filterMap_cons, if_pos h, List.getElem?_eq_getElem hlt,
        List.filter_cons_of_pos (by simpa using h), List.map_cons, ih,
        List.getD_eq_getElem _ _ hlt]
    · simp only [selectedPkgs] at ih ⊢
      rw [List.filterMap_cons, if_neg h,
        List.filter_cons_of_neg (by simpa using h), ih]

/-- Every package produced by the selection comprehension is one of the
outdated packages. -/
theorem mem_selectedPkgs {p : String} {pkgs : List String} {idxs : List Nat}
    (h : p ∈ selectedPkgs pkgs idxs) : p ∈ pkgs := by
  simp only [selectedPkgs, List.mem_filterMap] at h
  obtain ⟨i, _, hi⟩ := h
  by_cases hr : 0 < i ∧ i ≤ pkgs.length
  · rw [if_pos hr] at hi
    exact List.getElem?_mem hi
  · rw [if_neg hr] at hi
    cases hi

/-- `findIdx?` over a split list: when nothing in `pre` satisfies `p` and
`hd` does, the found index is `pre.length`. -/
theorem findIdx?_append_first {α : Type} (p : α → Bool) (pre : List α)
    (hd : α) (post : List α) (hpre : ∀ l ∈ pre, p l = false)
    (hhd : p hd = true) :
    (pre ++ hd :: post).findIdx? p = some pre.length := by
  induction pre with
  | nil => simp [List.findIdx?_cons, hhd]
  | cons x xs ih =>
    have hx : p x = false := hpre x (by simp)
    have ihx : (xs ++ hd :: post).findIdx? p = some xs.length :=
      ih fun l hl => hpre l (by simp [hl])
    simp [List.findIdx?_cons, hx, ihx]

/-! ### Claim theorems -/

/-- Claim C1 (code bug): `get_battery_health` on the Mac-like platform is
claimed never to divide by zero, returning `"N/A"` when `DesignCapacity` is
`0`; but on a `MaxCapacity` reading of `"100"` and a design-capacity dump
containing `"DesignCapacity"=0` the source (Main.py line 39) computes
`int("100") / int("0")` and raises `ZeroDivisionError`. -/
theorem battery_health_zero_design_raises :
    get_battery_health_mac (some "100") (some "\"DesignCapacity\"=0") =
      .error .zeroDivisionError := by rfl

/-- Claim C5 (code bug): malformed lines are claimed to be silently dropped
by every listing parser; the Mac and Windows process parsers and the choco
parser do drop them, but the winget parser (Main.py line 146) raises
`IndexError` on a non-empty line with fewer than two whitespace tokens
(here `"solo"`), aborting the parse — the well-formed `"Foo  foo.id  1.0"`
after it is never reached. -/
theorem winget_short_line_aborts_parse :
    wingetParse "Name  Id  Version\nsolo\nFoo  foo.id  1.0" =
        .error .indexError ∧
      macProcParse "USER 10 1.0 2.0 x x x x x x" = [] ∧
      macProcParse "USER 10 1.0 2.0 x x x x x x CMD extra" = [("10", "CMD")] ∧
      winProcParse "name 123 45\nshort 1\nnotnum pid x" = [("123", "name")] ∧
      chocoParse "Header line\n   \npkgA|1.0|1.1" = ["pkgA|1.0|1.1"] := by
  refine ⟨rfl, rfl, rfl, rfl, rfl⟩

/-- Claim C6: `run_command` returns the stripped captured stdout whenever
the shell was invoked — in particular on a nonzero exit code — and returns
`None` (the `Failed` indicator) with an error line logged exactly when
invoking the shell raised; no exception escapes (the embedding is total). -/
theorem run_command_contract :
    (∀ (cmd out : String) (code : Int), code ≠ 0 →
        run_command cmd (.ran code out) = (some (pyStrip out), [])) ∧
      (∀ cmd msg, (run_command cmd (.spawnError msg)).1 = none ∧
        (run_command cmd (.spawnError msg)).2 ≠ []) := by
  exact ⟨fun _ _ _ _ => rfl, fun _ _ => ⟨rfl, by simp [run_command]⟩⟩

/-- Witness for C6 at a concrete nonzero exit code. -/
theorem run_command_contract_witness :
    run_command "ls" (.ran 1 " out ") = (some (pyStrip " out "), []) :=
  run_command_contract.1 "ls" " out " 1 (by decide)

/-- Claim C7: on the unsupported (`other`) platform the cache-path list and
the browser-cache dict are both empty, so `clear_cache` produces an empty
effect trace — no deletion command, no disk-usage probe, no rendered
message of any kind (in particular no error), and the
`clear_browser_cache` loop body is never entered — whatever the
environment and the command oracles return. -/
theorem clear_cache_other_noop :
    ∀ (expandUser expandVars : String → String)
      (duSum : String → Option String) (duOut : String → String),
      cachePaths expandVars Platform.other = [] ∧
        browserCachePaths expandVars Platform.other = [] ∧
        clear_cache Platform.other expandUser expandVars duSum duOut = [] :=
  fun _ _ _ _ => ⟨rfl, rfl, rfl⟩

/-- Counterexample to claim C8 as stated: on the Windows-like platform —
a supported platform — `get_cache_size` yields `"N/A"`, not `"0B"`, even
when the disk-usage output is empty, because Main.py line 57 assigns the
literal `"N/A"` without consulting `du` when `IS_MAC` is false. -/
theorem get_cache_size_windows_not_zeroB :
    get_cache_size Platform.windowsLike "" = "N/A" ∧
      ("N/A" : String) ≠ "0B" := ⟨rfl, by decide⟩

/-- Claim C8 as amended: only on the Mac-like platform does the
empty-output default apply — an empty (or all-whitespace) disk-usage result
yields exactly `"0B"`; the Windows-like platform never consults the probe
and always returns `"N/A"`; in every case a string (never `None`) is
returned, which the embedding shows by type. -/
theorem get_cache_size_empty_default :
    (∀ duOut : String, pyStrip duOut = "" →
        get_cache_size Platform.macLike duOut = "0B") ∧
      (∀ duOut : String, get_cache_size Platform.windowsLike duOut = "N/A") := by
  constructor
  · intro duOut h
    simp [get_cache_size, h]
  · intro _
    rfl

/-- Witness for C8's amended theorem on an all-whitespace probe output. -/
theorem get_cache_size_empty_default_witness :
    get_cache_size Platform.macLike "   " = "0B" :=
  get_cache_size_empty_default.1 "   " (by decide)

/-- Counterexample to claim C3 as stated: on the claimed choco-style input
the parser does not yield `["pkgA","pkgB"]` — the data lines contain no
whitespace, so the "first whitespace-delimited token" of each is the whole
line (Main.py line 135). -/
theorem choco_example_yields_whole_lines :
    chocoParse "Name|Version|Available\npkgA|1.0|1.1\npkgB|2.0|2.1" =
        ["pkgA|1.0|1.1", "pkgB|2.0|2.1"] ∧
      (["pkgA|1.0|1.1", "pkgB|2.0|2.1"] : List String) ≠ ["pkgA", "pkgB"] :=
  ⟨rfl, by decide⟩

/-- Claim C3 as amended: the choco parser skips the header line (whose
content is irrelevant) and takes the first whitespace-delimited token of
each remaining non-blank line; since the example's data lines contain no
whitespace, that token is the entire line, so the example input yields
`["pkgA|1.0|1.1", "pkgB|2.0|2.1"]` in order. -/
theorem choco_parse_rule :
    chocoParse "Name|Version|Available\npkgA|1.0|1.1\npkgB|2.0|2.1" =
        ["pkgA|1.0|1.1", "pkgB|2.0|2.1"] ∧
      (∀ h₁ h₂ : String, ∀ ls : List String,
        chocoParseLines (h₁ :: ls) = chocoParseLines (h₂ :: ls)) ∧
      (∀ hd : String, ∀ ls : List String, ∀ p ∈ chocoParseLines (hd :: ls),
        ∃ l ∈ ls, (pyWords l).head? = some p ∧ (pyStrip l).data ≠ []) := by
  refine ⟨rfl, fun _ _ _ => rfl, fun hd ls p hp => ?_⟩
  simp only [chocoParseLines, List.drop_one, List.tail_cons,
    List.mem_filterMap] at hp
  obtain ⟨l, hl, hsome⟩ := hp
  by_cases hblank : (pyStrip l).data = []
  · simp [hblank] at hsome
  · rw [if_neg (by simpa using hblank)] at hsome
    exact ⟨l, hl, hsome, hblank⟩

/-- Witness for C3's amended theorem: the first token of the second data
line of the example listing is the whole line. -/
theorem choco_parse_rule_witness :
    ∃ l ∈ ["pkgA|1.0|1.1", "pkgB|2.0|2.1"],
      (pyWords l).head? = some "pkgB|2.0|2.1" ∧ (pyStrip l).data ≠ [] :=
  choco_parse_rule.2.2 "Name|Version|Available" ["pkgA|1.0|1.1", "pkgB|2.0|2.1"]
    "pkgB|2.0|2.1" (by decide)

/-- Counterexample to claim C4 as stated: the source picks as header the
first line that merely *starts with* `"Name"` (Main.py line 143), not the
first line whose first token *is* `"Name"`.  On a listing whose first line
is `"Nameless junk"` the code takes that line as the header — its first
token is `"Nameless"`, not `"Name"` — and therefore also harvests `"Id"`
from the true header line, unlike the spec-worded parser. -/
theorem winget_header_startswith_mismatch :
    wingetParseLines ["Nameless junk", "Name  Id  Version", "Foo  foo.id  1.0"] =
        .ok ["Id", "foo.id"] ∧
      wingetParseSpecLines
          ["Nameless junk", "Name  Id  Version", "Foo  foo.id  1.0"] =
        .ok ["foo.id"] ∧
      wingetHeaderIdx ["Nameless junk", "Name  Id  Version", "Foo  foo.id  1.0"] = 0 ∧
      (pyWords "Nameless junk").head? = some "Nameless" ∧
      (["Id", "foo.id"] : List String) ≠ ["foo.id"] := by
  exact ⟨rfl, rfl, rfl, rfl, by decide⟩

/-- Claim C4 as amended: the winget parser treats as header the first line
whose stripped text starts with the prefix `"Name"` (defaulting to the
first line when none does), and runs the second-token comprehension on the
lines after it; on the claimed example listing it yields exactly
`["foo.id"]`. -/
theorem winget_parse_rule :
    (∀ (pre : List String) (hd : String) (post : List String),
        (∀ l ∈ pre, pyStartsWith (pyStrip l) "Name" = false) →
        pyStartsWith (pyStrip hd) "Name" = true →
        wingetParseLines (pre ++ hd :: post) = secondTokens post) ∧
      wingetParse "Name  Id  Version\nFoo  foo.id  1.0" = .ok ["foo.id"] := by
  refine ⟨fun pre hd post hpre hhd => ?_, rfl⟩
  have hidx : wingetHeaderIdx (pre ++ hd :: post) = pre.length := by
    unfold wingetHeaderIdx
    rw [findIdx?_append_first _ pre hd post hpre hhd]
    rfl
  by_cases hlen : 1 < (pre ++ hd :: post).length
  · unfold wingetParseLines
    rw [if_pos hlen, hidx]
    have hdrop : (pre ++ hd :: post).drop (pre.length + 1) = post := by
      have h2 : pre ++ hd :: post = (pre ++ [hd]) ++ post := by simp
      have h3 : pre.length + 1 = (pre ++ [hd]).length := by simp
      rw [h2, h3, List.drop_left]
    rw [hdrop]
  · have hpre0 : pre = [] := by
      cases pre with
      | nil => rfl
      | cons x xs => simp [List.length_append] at hlen
    have hpost0 : post = [] := by
      subst hpre0
      cases post with
      | nil => rfl
      | cons y ys => simp at hlen
    subst hpre0; subst hpost0
    unfold wingetParseLines
    rw [if_neg hlen]
    rfl

/-- Witness for C4's amended theorem at the claimed example listing
(empty prefix, header `"Name  Id  Version"`, one data line). -/
theorem winget_parse_rule_witness :
    wingetParseLines ["Name  Id  Version", "Foo  foo.id  1.0"] =
      secondTokens ["Foo  foo.id  1.0"] :=
  winget_parse_rule.1 [] "Name  Id  Version" ["Foo  foo.id  1.0"]
    (by decide) (by decide)

/-- Claim C9: `monitor_usage` hands a pid to `kill_process` exactly when the
action choice is `"1"` with a non-empty CPU list or `"2"` with a non-empty
memory list, and the entered index string is all digits and denotes a
1-based index within the chosen list; every other input (including `"3"`,
non-numeric or out-of-range indices) executes no kill command. -/
theorem monitor_kill_gating (action idxInput : String)
    (cpu mem : List ProcRecord) :
    (killTarget action idxInput cpu mem).isSome = true ↔
      ((action = "1" ∧ cpu ≠ [] ∧ pyIsDigit idxInput = true ∧
          1 ≤ pyToNat idxInput ∧ pyToNat idxInput ≤ cpu.length) ∨
        (action = "2" ∧ mem ≠ [] ∧ pyIsDigit idxInput = true ∧
          1 ≤ pyToNat idxInput ∧ pyToNat idxInput ≤ mem.length)) := by
  have h12 : ("1" : String) ≠ "2" := by decide
  unfold killTarget
  by_cases h1 : action = "1" ∧ cpu ≠ []
  · rw [if_pos h1]
    by_cases h2 : pyIsDigit idxInput = true ∧ 1 ≤ pyToNat idxInput ∧
        pyToNat idxInput ≤ cpu.length
    · rw [if_pos h2]
      simp only [Option.isSome_some, true_iff]
      exact Or.inl ⟨h1.1, h1.2, h2.1, h2.2.1, h2.2.2⟩
    · rw [if_neg h2]
      simp only [Option.isSome_none, Bool.false_eq_true, false_iff]
      rintro (⟨_, _, hd, hle, hlen⟩ | ⟨ha2, _⟩)
      · exact h2 ⟨hd, hle, hlen⟩
      · exact h12 (h1.1 ▸ ha2)
  · rw [if_neg h1]
    by_cases h3 : action = "2" ∧ mem ≠ []
    · rw [if_pos h3]
      by_cases h4 : pyIsDigit idxInput = true ∧ 1 ≤ pyToNat idxInput ∧
          pyToNat idxInput ≤ mem.length
      · rw [if_pos h4]
        simp only [Option.isSome_some, true_iff]
        exact Or.inr ⟨h3.1, h3.2, h4.1, h4.2.1, h4.2.2⟩
      · rw [if_neg h4]
        simp only [Option.isSome_none, Bool.false_eq_true, false_iff]
        rintro (⟨ha1, hc, _⟩ | ⟨_, _, hd, hle, hlen⟩)
        · exact h1 ⟨ha1, hc⟩
        · exact h4 ⟨hd, hle, hlen⟩
    · rw [if_neg h3]
      simp only [Option.isSome_none, Bool.false_eq_true, false_iff]
      rintro (⟨ha1, hc, _⟩ | ⟨ha2, hm, _⟩)
      · exact h1 ⟨ha1, hc⟩
      · exact h3 ⟨ha2, hm⟩

/-- Witness for C9 at a concrete valid CPU kill. -/
theorem monitor_kill_gating_witness :
    (killTarget "1" "2" [("9", "a"), ("8", "b")] []).isSome = true ↔
      (("1" : String) = "1" ∧ ([("9", "a"), ("8", "b")] : List ProcRecord) ≠ [] ∧
          pyIsDigit "2" = true ∧ 1 ≤ pyToNat "2" ∧
          pyToNat "2" ≤ ([("9", "a"), ("8", "b")] : List ProcRecord).length) ∨
        (("1" : String) = "2" ∧ ([] : List ProcRecord) ≠ [] ∧
          pyIsDigit "2" = true ∧ 1 ≤ pyToNat "2" ∧
          pyToNat "2" ≤ ([] : List ProcRecord).length) :=
  monitor_kill_gating "1" "2" [("9", "a"), ("8", "b")] []

/-- Claim C2: the upgrade-selection resolver of `check_system_updates`
sends `"a"` to the upgrade-all action and `"n"` to the skip action; a
comma-separated input keeps only digit tokens whose value lies in
`[1, length]` (non-numeric and out-of-range tokens silently dropped), so
over 8 records `"3,1,99,x"` selects exactly the records at indices 3 and 1;
an input with no valid index (such as `"bogus"`) resolves to the rendered
"no valid selection" notice; and whenever the resolver does select, the
selection is non-empty and drawn from the record list.  The resolver is a
total function, so no input makes it raise. -/
theorem upgrade_selector_contract (pkgs sel : List String) (raw : String)
    (hsel : resolveUpgrade raw pkgs = .upgradeSome sel) :
    resolveUpgrade "a" pkgs = .upgradeAll ∧
      resolveUpgrade "n" pkgs = .skip ∧
      resolveUpgrade "bogus" pkgs = .noValidNotice ∧
      (∀ a b c d e f g h : String,
        resolveUpgrade "3,1,99,x" [a, b, c, d, e, f, g, h] =
          .upgradeSome [c, a]) ∧
      sel ≠ [] ∧ sel ⊆ pkgs := by
  refine ⟨rfl, rfl, rfl, fun _ _ _ _ _ _ _ _ => rfl, ?_⟩
  simp only [resolveUpgrade] at hsel
  split_ifs at hsel with hA hN hE
  injection hsel with hsel
  subst hsel
  refine ⟨fun hnil => ?_, fun p hp => mem_selectedPkgs hp⟩
  rw [hnil] at hE
  exact hE rfl

/-- Witness for C2 at the claimed 8-record example. -/
theorem upgrade_selector_contract_witness :
    (["p3", "p1"] : List String) ≠ [] ∧
      (["p3", "p1"] : List String) ⊆
        ["p1", "p2", "p3", "p4", "p5", "p6", "p7", "p8"] :=
  (upgrade_selector_contract ["p1", "p2", "p3", "p4", "p5", "p6", "p7", "p8"]
    ["p3", "p1"] "3,1,99,x" rfl).2.2.2.2

/-- Claim C10: the selection comprehension preserves the input order of the
indices and keeps duplicates — it equals the valid indices, filtered in
input order, each mapped to its 1-based package — so `"3,1,3"` over at
least three outdated packages upgrades package 3, then package 1, then
package 3 again. -/
theorem upgrade_selection_order_dups :
    (∀ (pkgs : List String) (idxs : List Nat),
        selectedPkgs pkgs idxs =
          (idxs.filter fun i => decide (0 < i ∧ i ≤ pkgs.length)).map
            fun i => pkgs.getD (i - 1) "") ∧
      (∀ (a b c : String) (rest : List String),
        resolveUpgrade "3,1,3" (a :: b :: c :: rest) =
          .upgradeSome [c, a, c]) := by
  refine ⟨selectedPkgs_eq_filter_map, fun a b c rest => ?_⟩
  have hsel : selectedPkgs (a :: b :: c :: rest) [3, 1, 3] = [c, a, c] := by
    rw [selectedPkgs_eq_filter_map]
    have hlen : (a :: b :: c :: rest).length = rest.length + 3 := by
      simp [List.length_cons]
    simp only [List.filter_cons, List.filter_nil, decide_eq_true_eq, hlen]
    rw [if_pos (by omega), if_pos (by omega), if_pos (by omega)]
    simp [List.getD_cons_succ, List.getD_cons_zero]
  have hidx : parseIndices (pyLower (pyStrip "3,1,3")) = [3, 1, 3] := rfl
  simp only [resolveUpgrade]
  rw [if_neg (by decide), if_neg (by decide), hidx, hsel]
  rfl

end CLIOpt
